import Mathlib

/-
  Verification development for the photon-wander particle simulation.

  The embedding models the simulation core: the particle record, the
  per-frame step function (random walk inside the sphere, ballistic
  escape outside), the reap/repopulate population manager, trail
  construction at retirement, the spawn operations of the page
  component, and the per-segment color/opacity mapping used by the
  two rendering call sites.  Machine floating point is modelled by ℝ;
  the random draws of the source are passed in explicitly.
-/

namespace PhotonWander

/-- A 3D vector, mirroring THREE.Vector3 as used by the simulation. -/
structure Vec3 where
  x : ℝ
  y : ℝ
  z : ℝ

/-- Componentwise addition (THREE.Vector3.add). -/
def Vec3.add (a b : Vec3) : Vec3 :=
  ⟨a.x + b.x, a.y + b.y, a.z + b.z⟩

/-- Scalar multiplication (THREE.Vector3.multiplyScalar). -/
def Vec3.multiplyScalar (v : Vec3) (s : ℝ) : Vec3 :=
  ⟨v.x * s, v.y * s, v.z * s⟩

/-- Euclidean norm (THREE.Vector3.length). -/
noncomputable def Vec3.length (v : Vec3) : ℝ :=
  Real.sqrt (v.x * v.x + v.y * v.y + v.z * v.z)

/-- Euclidean distance between two points (THREE.Vector3.distanceTo). -/
noncomputable def Vec3.distanceTo (a b : Vec3) : ℝ :=
  Real.sqrt ((a.x - b.x) * (a.x - b.x) + (a.y - b.y) * (a.y - b.y) +
    (a.z - b.z) * (a.z - b.z))

/-- Normalization (THREE.Vector3.normalize divides by `length() || 1`). -/
noncomputable def Vec3.normalize (v : Vec3) : Vec3 :=
  v.multiplyScalar (1 / (if v.length = 0 then 1 else v.length))

/-- Sphere radius R (source: `const SPHERE_RADIUS = 3.5`). -/
def SPHERE_RADIUS : ℝ := 3.5

/-- Escape cutoff (source: `const MAX_DISTANCE = 25`). -/
def MAX_DISTANCE : ℝ := 25

/-- Path decimation threshold (source: `const DISTANCE_THRESHOLD = 0.1`). -/
def DISTANCE_THRESHOLD : ℝ := 0.1

/-- Maximum live particle count (source: `const MAX_PHOTONS = 8`). -/
def MAX_PHOTONS : ℕ := 8

/-- The settings record consumed by the simulation. -/
structure Settings where
  rotationSpeed : ℝ
  sphereTransparency : ℝ
  photonSpeed : ℝ
  stepDistance : ℝ
  photonSize : ℝ

/-- One particle's state (source interface PhotonData). -/
structure PhotonData where
  id : ℕ
  position : Vec3
  velocity : Vec3
  path : List Vec3
  isOutside : Bool
  distanceFromCenter : ℝ

/-- A retired trail (source interface PhotonTrail). -/
structure PhotonTrail where
  id : ℕ
  path : List Vec3

/-- The random draws consumed by one inside-phase step: `u1` is compared
against 0.3, `u2` and `u3` feed the spherical direction resample. -/
structure RandDraws where
  u1 : ℝ
  u2 : ℝ
  u3 : ℝ

/-- The three random draws consumed when spawning a particle. -/
structure SpawnRand where
  u1 : ℝ
  u2 : ℝ
  u3 : ℝ

/-- Forced initial path seeding at the top of a tick (source:
`if (newPhoton.path.length < 2) newPhoton.path = [...path, position]`). -/
def basePath (p : PhotonData) : List Vec3 :=
  if p.path.length < 2 then p.path ++ [p.position] else p.path

/-- Inside-phase velocity for the tick: with the draw below 0.3 the
direction is resampled from spherical coordinates and scaled by
`stepDistance`, otherwise the previous velocity persists. -/
noncomputable def insideVelocity (r : RandDraws) (s : Settings) (p : PhotonData) : Vec3 :=
  if r.u1 < 0.3 then
    (Vec3.mk (Real.sin (r.u3 * Real.pi) * Real.cos (r.u2 * Real.pi * 2))
      (Real.sin (r.u3 * Real.pi) * Real.sin (r.u2 * Real.pi * 2))
      (Real.cos (r.u3 * Real.pi))).multiplyScalar s.stepDistance
  else p.velocity

/-- Inside-phase position update:
`position.add(velocity.clone().multiplyScalar(speed))` with
`speed = photonSpeed * delta * 2`. -/
noncomputable def insideMoved (r : RandDraws) (s : Settings) (delta : ℝ) (p : PhotonData) : Vec3 :=
  p.position.add ((insideVelocity r s p).multiplyScalar (s.photonSpeed * delta * 2))

/-- Outside-phase position update:
`position.add(velocity.clone().multiplyScalar(speed * 3))`. -/
def outsideMoved (s : Settings) (delta : ℝ) (p : PhotonData) : Vec3 :=
  p.position.add (p.velocity.multiplyScalar (s.photonSpeed * delta * 2 * 3))

/-- Path decimation (source: append the new position only when the path is
empty or the last recorded point is farther than `DISTANCE_THRESHOLD`). -/
noncomputable def pushIfFar (path : List Vec3) (pos : Vec3) : List Vec3 :=
  match path.getLast? with
  | none => path ++ [pos]
  | some lpt => if DISTANCE_THRESHOLD < lpt.distanceTo pos then path ++ [pos] else path

/-- One simulation tick for one particle (source: the `useFrame` body of
the `Photon` component).  Inside phase: random walk, boundary check with
renormalization and radial velocity reset; outside phase: ballistic
motion at triple speed.  Note that on the transition tick
`distanceFromCenter` keeps the norm of the un-renormalized position. -/
noncomputable def stepPhoton (r : RandDraws) (s : Settings) (delta : ℝ) (p : PhotonData) :
    PhotonData :=
  if p.isOutside = false then
    if SPHERE_RADIUS ≤ (insideMoved r s delta p).length then
      { id := p.id
        position := ((insideMoved r s delta p).normalize).multiplyScalar SPHERE_RADIUS
        velocity :=
          ((((insideMoved r s delta p).normalize).multiplyScalar
            SPHERE_RADIUS).normalize).multiplyScalar 0.5
        path := pushIfFar (basePath p)
          (((insideMoved r s delta p).normalize).multiplyScalar SPHERE_RADIUS)
        isOutside := true
        distanceFromCenter := (insideMoved r s delta p).length }
    else
      { id := p.id
        position := insideMoved r s delta p
        velocity := insideVelocity r s p
        path := pushIfFar (basePath p) (insideMoved r s delta p)
        isOutside := false
        distanceFromCenter := (insideMoved r s delta p).length }
  else
    { id := p.id
      position := outsideMoved s delta p
      velocity := p.velocity
      path := pushIfFar (basePath p) (outsideMoved s delta p)
      isOutside := p.isOutside
      distanceFromCenter := (outsideMoved s delta p).length }

/-- The per-frame inputs of one tick. -/
structure TickInput where
  rand : RandDraws
  settings : Settings
  delta : ℝ

/-- Running a sequence of ticks over one particle. -/
noncomputable def runTicks (ts : List TickInput) (p : PhotonData) : PhotonData :=
  ts.foldl (fun q t => stepPhoton t.rand t.settings t.delta q) p

/-- Trail construction at retirement (source: the `removedPhotons.map`
body of the Scene reap effect): a copy of the path, padded by duplicating
the first point when the path has one point, or replaced by two copies of
the particle's current position when the path is empty. -/
def mkTrail (p : PhotonData) : PhotonTrail :=
  if p.path.length < 2 ∧ 0 < p.path.length then
    { id := p.id, path := p.path ++ [p.path.headD p.position] }
  else if p.path.length = 0 then
    { id := p.id, path := [p.position, p.position] }
  else
    { id := p.id, path := p.path }

/-- The replacement particle spawned by the repopulation rule (source:
the `newPhoton` literal in the Scene reap effect): id is `Date.now()`,
passed here as `now`; velocity components are `(draw - 0.5) * 0.1`; the
path holds the origin and a second point displaced by `velocity * 0.01`. -/
def replacementPhoton (now : ℕ) (r : SpawnRand) : PhotonData :=
  let start := Vec3.mk 0 0 0
  let vel := Vec3.mk ((r.u1 - 0.5) * 0.1) ((r.u2 - 0.5) * 0.1) ((r.u3 - 0.5) * 0.1)
  let second := start.add (vel.multiplyScalar 0.01)
  { id := now
    position := Vec3.mk 0 0 0
    velocity := vel
    path := [start, second]
    isOutside := false
    distanceFromCenter := 0 }

/-- The replacement particle of the superseded copy of the component
(single-point seed path), kept for the spawn-state claims. -/
def replacementPhotonLegacy (now : ℕ) (r : SpawnRand) : PhotonData :=
  { id := now
    position := Vec3.mk 0 0 0
    velocity := Vec3.mk ((r.u1 - 0.5) * 0.1) ((r.u2 - 0.5) * 0.1) ((r.u3 - 0.5) * 0.1)
    path := [Vec3.mk 0 0 0]
    isOutside := false
    distanceFromCenter := 0 }

/-- The particles kept live by the reap effect (source:
`photons.filter(p => p.distanceFromCenter < MAX_DISTANCE)`). -/
noncomputable def reapActive (photons : List PhotonData) : List PhotonData :=
  photons.filter (fun p => p.distanceFromCenter < MAX_DISTANCE)

/-- The particles removed by the reap effect (source:
`photons.filter(p => p.distanceFromCenter >= MAX_DISTANCE)`). -/
noncomputable def reapRemoved (photons : List PhotonData) : List PhotonData :=
  photons.filter (fun p => MAX_DISTANCE ≤ p.distanceFromCenter)

/-- The reap effect of the Scene component: returns the next live list
and the trails appended this tick.  When reaping removed particles and
left none active, a single replacement is spawned; when it removed some
but not all, the active list is kept; otherwise nothing changes. -/
noncomputable def reap (now : ℕ) (r : SpawnRand) (photons : List PhotonData) :
    List PhotonData × List PhotonTrail :=
  if (reapActive photons).length < photons.length ∧ (reapActive photons).length = 0 then
    ([replacementPhoton now r], (reapRemoved photons).map mkTrail)
  else if (reapActive photons).length ≠ photons.length then
    (reapActive photons, (reapRemoved photons).map mkTrail)
  else
    (photons, [])

/-- `createPhoton` of the page component: id is the current value of the
module-level counter, which is then incremented; velocity components are
`(draw - 0.5) * 0.1`; the seed path holds the origin and a second point
displaced by `velocity * 0.01`. -/
def createPhoton (r : SpawnRand) (counter : ℕ) : PhotonData × ℕ :=
  let startPos := Vec3.mk 0 0 0
  let velocity := Vec3.mk ((r.u1 - 0.5) * 0.1) ((r.u2 - 0.5) * 0.1) ((r.u3 - 0.5) * 0.1)
  let secondPos := startPos.add (velocity.multiplyScalar 0.01)
  ({ id := counter
     position := startPos
     velocity := velocity
     path := [startPos, secondPos]
     isOutside := false
     distanceFromCenter := 0 }, counter + 1)

/-- The page component's state: live particles, retired trails, and the
module-level id counter. -/
structure IndexState where
  photons : List PhotonData
  trails : List PhotonTrail
  counter : ℕ

/-- `handleAddPhoton` of the page component: appends one freshly created
particle when below `MAX_PHOTONS`, otherwise does nothing. -/
def addPhoton (r : SpawnRand) (st : IndexState) : IndexState :=
  if st.photons.length < MAX_PHOTONS then
    { st with
      photons := st.photons ++ [(createPhoton r st.counter).1]
      counter := (createPhoton r st.counter).2 }
  else st

/-- `handleReset` of the page component: one fresh particle, no trails. -/
def resetState (r : SpawnRand) (st : IndexState) : IndexState :=
  { photons := [(createPhoton r st.counter).1]
    trails := []
    counter := (createPhoton r st.counter).2 }

/-- A session's sequence of `createPhoton` calls threading the counter. -/
def spawnAll : List SpawnRand → ℕ → List PhotonData × ℕ
  | [], c => ([], c)
  | r :: rs, c =>
    ((createPhoton r c).1 :: (spawnAll rs (createPhoton r c).2).1,
      (spawnAll rs (createPhoton r c).2).2)

/-- An RGB color, mirroring THREE.Color. -/
structure Color where
  r : ℝ
  g : ℝ
  b : ℝ

/-- THREE.Color.lerpColors: componentwise `c1 + (c2 - c1) * t`. -/
def Color.lerp (c1 c2 : Color) (t : ℝ) : Color :=
  ⟨c1.r + (c2.r - c1.r) * t, c1.g + (c2.g - c1.g) * t, c1.b + (c2.b - c1.b) * t⟩

/-- THREE.Color.multiplyScalar. -/
def Color.multiplyScalar (c : Color) (s : ℝ) : Color :=
  ⟨c.r * s, c.g * s, c.b * s⟩

/-- The dark red near color 0x370307 ("photon-start" in the source). -/
noncomputable def photonStart : Color := ⟨0x37 / 255, 0x03 / 255, 0x07 / 255⟩

/-- The bright orange far color 0xc85e0a ("photon-end" in the source). -/
noncomputable def photonEnd : Color := ⟨0xc8 / 255, 0x5e / 255, 0x0a / 255⟩

/-- Per-segment color and opacity at the live-particle rendering call
site of the immediate-mode component (Photon pathLines): inside-sphere
gradient with opacity 1, outside a fixed orange with exponential fade
floored at 0.1. -/
noncomputable def photonSegmentStyle (d : ℝ) : Color × ℝ :=
  if d ≤ SPHERE_RADIUS then
    (Color.lerp photonStart photonEnd (d / SPHERE_RADIUS), 1)
  else
    (photonEnd, max 0.1 (Real.exp (-(max 0 ((d - SPHERE_RADIUS) / 10)))))

/-- Per-segment color and opacity at the retired-trail rendering call
site of the immediate-mode component (TrailRenderer pathLines). -/
noncomputable def trailSegmentStyle (d : ℝ) : Color × ℝ :=
  if d ≤ SPHERE_RADIUS then
    (Color.lerp photonStart photonEnd (d / SPHERE_RADIUS), 1)
  else
    (photonEnd, max 0.1 (Real.exp (-(max 0 ((d - SPHERE_RADIUS) / 10)))))

/-- Per-segment vertex color at the live-particle call site of the
buffered component (Photon geometry update): outside the sphere the fade
is multiplied into the color. -/
noncomputable def photonVertexColor (d : ℝ) : Color :=
  if d ≤ SPHERE_RADIUS then
    Color.lerp photonStart photonEnd (d / SPHERE_RADIUS)
  else
    photonEnd.multiplyScalar (max 0.1 (Real.exp (-(max 0 ((d - SPHERE_RADIUS) / 10)))))

/-- Per-segment vertex color at the retired-trail call site of the
buffered component (TrailRenderer geometry build). -/
noncomputable def trailVertexColor (d : ℝ) : Color :=
  if d ≤ SPHERE_RADIUS then
    Color.lerp photonStart photonEnd (d / SPHERE_RADIUS)
  else
    photonEnd.multiplyScalar (max 0.1 (Real.exp (-(max 0 ((d - SPHERE_RADIUS) / 10)))))

/-! ### Concrete sample inputs used by witnesses and counterexamples -/

/-- A draw that keeps the previous velocity (`u1 = 1` is not below 0.3). -/
def randKeep : RandDraws := ⟨1, 0, 0⟩

/-- Settings with unit speed and unit step distance. -/
def sampleSettings : Settings := ⟨0, 0, 1, 1, 1⟩

/-- A spawn draw. -/
def spawnHalf : SpawnRand := ⟨0.5, 0.5, 0.5⟩

/-- An inside-phase particle at distance 3 moving outward along x. -/
def pNear : PhotonData :=
  { id := 0
    position := Vec3.mk 3 0 0
    velocity := Vec3.mk 1 0 0
    path := [Vec3.mk 0 0 0, Vec3.mk 3 0 0]
    isOutside := false
    distanceFromCenter := 3 }

/-- An outside-phase particle moving along x. -/
def pStep : PhotonData :=
  { id := 2
    position := Vec3.mk 1 0 0
    velocity := Vec3.mk 1 0 0
    path := [Vec3.mk 0 0 0, Vec3.mk 1 0 0]
    isOutside := true
    distanceFromCenter := 1 }

/-- An outside-phase particle at rest at the origin. -/
def pOut : PhotonData :=
  { id := 3
    position := Vec3.mk 0 0 0
    velocity := Vec3.mk 0 0 0
    path := [Vec3.mk 0 0 0, Vec3.mk 0 0 0]
    isOutside := true
    distanceFromCenter := 0 }

/-- One tick's inputs. -/
def tickOut : TickInput := ⟨randKeep, sampleSettings, 1⟩

/-- A particle beyond the escape cutoff. -/
def pFar : PhotonData :=
  { id := 1
    position := Vec3.mk 2 0 0
    velocity := Vec3.mk 0 0 0
    path := [Vec3.mk 0 0 0, Vec3.mk 2 0 0]
    isOutside := true
    distanceFromCenter := 30 }

/-- A one-particle population whose particle has escaped. -/
def psFar : List PhotonData := [pFar]

/-- An empty page state. -/
def stEmpty : IndexState := { photons := [], trails := [], counter := 0 }

/-- A page state at capacity. -/
def stFull : IndexState :=
  { photons := List.replicate 8 pFar, trails := [], counter := 9 }

/-- A particle whose path holds a single point. -/
def pSolo : PhotonData :=
  { id := 4
    position := Vec3.mk 2 0 0
    velocity := Vec3.mk 0 0 0
    path := [Vec3.mk 1 0 0]
    isOutside := true
    distanceFromCenter := 2 }

/-- The first counter-spawned particle (id 0) after drifting past the
escape cutoff. -/
def pEsc : PhotonData :=
  { id := 0
    position := (createPhoton spawnHalf 0).1.position
    velocity := (createPhoton spawnHalf 0).1.velocity
    path := (createPhoton spawnHalf 0).1.path
    isOutside := false
    distanceFromCenter := 30 }

/-! ### Helper lemmas -/

theorem Vec3.multiplyScalar_multiplyScalar (v : Vec3) (a b : ℝ) :
    (v.multiplyScalar a).multiplyScalar b = v.multiplyScalar (a * b) := by
  simp only [Vec3.multiplyScalar, Vec3.mk.injEq]
  refine ⟨by ring, by ring, by ring⟩

theorem Vec3.length_multiplyScalar (v : Vec3) (s : ℝ) :
    (v.multiplyScalar s).length = |s| * v.length := by
  simp only [Vec3.multiplyScalar, Vec3.length]
  have h : v.x * s * (v.x * s) + v.y * s * (v.y * s) + v.z * s * (v.z * s)
      = s * s * (v.x * v.x + v.y * v.y + v.z * v.z) := by ring
  rw [h, Real.sqrt_mul (mul_self_nonneg s), Real.sqrt_mul_self_eq_abs]

theorem lengthFour : (Vec3.mk 4 0 0).length = 4 := by
  simp only [Vec3.length]
  rw [show (4 * 4 + 0 * 0 + 0 * 0 : ℝ) = 4 ^ 2 by norm_num,
    Real.sqrt_sq (by norm_num : (0:ℝ) ≤ 4)]

theorem sampleMoved : insideMoved randKeep sampleSettings (1/2) pNear = Vec3.mk 4 0 0 := by
  simp only [insideMoved, insideVelocity, randKeep, sampleSettings, pNear,
    Vec3.add, Vec3.multiplyScalar]
  rw [if_neg (by norm_num)]
  simp only [Vec3.mk.injEq]
  norm_num

theorem sampleCrossing :
    SPHERE_RADIUS ≤ (insideMoved randKeep sampleSettings (1/2) pNear).length := by
  rw [sampleMoved, lengthFour]
  norm_num [SPHERE_RADIUS]

theorem stepPhoton_keepsOutside (r : RandDraws) (s : Settings) (delta : ℝ)
    (p : PhotonData) (h : p.isOutside = true) :
    (stepPhoton r s delta p).isOutside = true := by
  unfold stepPhoton
  rw [if_neg (by simp [h])]
  exact h

theorem pushIfFar_spec (path : List Vec3) (pos : Vec3) :
    (pushIfFar path pos = path ++ [pos] ↔
      path = [] ∨ ∃ lpt, path.getLast? = some lpt ∧
        DISTANCE_THRESHOLD < lpt.distanceTo pos) ∧
    (¬(path = [] ∨ ∃ lpt, path.getLast? = some lpt ∧
        DISTANCE_THRESHOLD < lpt.distanceTo pos) →
      pushIfFar path pos = path) := by
  unfold pushIfFar
  cases h : path.getLast? with
  | none =>
    have hnil : path = [] := by
      cases path with
      | nil => rfl
      | cons a as => simp at h
    subst hnil
    simp
  | some lpt =>
    have hne : path ≠ [] := by
      intro hnil
      rw [hnil] at h
      simp at h
    dsimp only
    by_cases hfar : DISTANCE_THRESHOLD < lpt.distanceTo pos
    · rw [if_pos hfar]
      exact ⟨iff_of_true rfl (Or.inr ⟨lpt, rfl, hfar⟩),
        fun hn => absurd (Or.inr ⟨lpt, rfl, hfar⟩) hn⟩
    · rw [if_neg hfar]
      constructor
      · constructor
        · intro heq
          have := congrArg List.length heq
          simp at this
        · rintro (hnil | ⟨lpt2, hl2, hfar2⟩)
          · exact absurd hnil hne
          · rw [Option.some_inj] at hl2
            exact absurd (hl2 ▸ hfar2) hfar
      · intro _
        rfl

theorem stepPhoton_path (r : RandDraws) (s : Settings) (delta : ℝ) (p : PhotonData) :
    (stepPhoton r s delta p).path =
      pushIfFar (basePath p) (stepPhoton r s delta p).position := by
  unfold stepPhoton
  by_cases h1 : p.isOutside = false
  · rw [if_pos h1]
    by_cases h2 : SPHERE_RADIUS ≤ (insideMoved r s delta p).length
    · rw [if_pos h2]
    · rw [if_neg h2]
  · rw [if_neg h1]

/-! ### Claim theorems -/

/-- C1 (amended): an inside-phase particle whose position update reaches
distance at least R = 3.5 transitions to the Outside phase with position
renormalized to norm exactly 3.5 along the same direction, velocity set
to the outward radial unit vector scaled by 0.5, and `distanceFromCenter`
equal to the pre-renormalization distance (the norm of the un-renormalized
updated position), which is not reset to 3.5 on the transition tick. -/
theorem step_transition (r : RandDraws) (s : Settings) (delta : ℝ) (p : PhotonData)
    (hin : p.isOutside = false)
    (hd : SPHERE_RADIUS ≤ (insideMoved r s delta p).length) :
    (stepPhoton r s delta p).isOutside = true ∧
    (stepPhoton r s delta p).position.length = SPHERE_RADIUS ∧
    (stepPhoton r s delta p).position =
      (insideMoved r s delta p).multiplyScalar
        (SPHERE_RADIUS / (insideMoved r s delta p).length) ∧
    (stepPhoton r s delta p).velocity =
      ((stepPhoton r s delta p).position).multiplyScalar (0.5 / SPHERE_RADIUS) ∧
    (stepPhoton r s delta p).velocity.length = 0.5 ∧
    (stepPhoton r s delta p).distanceFromCenter = (insideMoved r s delta p).length := by
  have hlpos : (0:ℝ) < (insideMoved r s delta p).length :=
    lt_of_lt_of_le (by norm_num [SPHERE_RADIUS]) hd
  have hlne : (insideMoved r s delta p).length ≠ 0 := ne_of_gt hlpos
  have hPos : (stepPhoton r s delta p).position =
      ((insideMoved r s delta p).normalize).multiplyScalar SPHERE_RADIUS := by
    unfold stepPhoton
    rw [if_pos hin, if_pos hd]
  have hVel : (stepPhoton r s delta p).velocity =
      ((((insideMoved r s delta p).normalize).multiplyScalar
        SPHERE_RADIUS).normalize).multiplyScalar 0.5 := by
    unfold stepPhoton
    rw [if_pos hin, if_pos hd]
  have hOut : (stepPhoton r s delta p).isOutside = true := by
    unfold stepPhoton
    rw [if_pos hin, if_pos hd]
  have hDist : (stepPhoton r s delta p).distanceFromCenter =
      (insideMoved r s delta p).length := by
    unfold stepPhoton
    rw [if_pos hin, if_pos hd]
  have hnorm : (insideMoved r s delta p).normalize =
      (insideMoved r s delta p).multiplyScalar (1 / (insideMoved r s delta p).length) := by
    unfold Vec3.normalize
    rw [if_neg hlne]
  have hposexpr : ((insideMoved r s delta p).normalize).multiplyScalar SPHERE_RADIUS =
      (insideMoved r s delta p).multiplyScalar
        (SPHERE_RADIUS / (insideMoved r s delta p).length) := by
    rw [hnorm, Vec3.multiplyScalar_multiplyScalar]
    congr 1
    field_simp
  have hplen : (((insideMoved r s delta p).normalize).multiplyScalar SPHERE_RADIUS).length =
      SPHERE_RADIUS := by
    rw [hposexpr, Vec3.length_multiplyScalar,
      abs_of_pos (div_pos (by norm_num [SPHERE_RADIUS]) hlpos),
      div_mul_cancel₀ _ hlne]
  have hplenne : (((insideMoved r s delta p).normalize).multiplyScalar
      SPHERE_RADIUS).length ≠ 0 := by
    rw [hplen]
    norm_num [SPHERE_RADIUS]
  have hvelexpr : (stepPhoton r s delta p).velocity =
      ((stepPhoton r s delta p).position).multiplyScalar (0.5 / SPHERE_RADIUS) := by
    rw [hVel, hPos]
    conv_lhs => rw [Vec3.normalize, if_neg hplenne, hplen,
      Vec3.multiplyScalar_multiplyScalar]
    congr 1
    norm_num [SPHERE_RADIUS]
  have hvlen : (stepPhoton r s delta p).velocity.length = 0.5 := by
    rw [hvelexpr, Vec3.length_multiplyScalar]
    have hpl : (stepPhoton r s delta p).position.length = SPHERE_RADIUS := by
      rw [hPos]
      exact hplen
    rw [hpl, abs_of_pos (by norm_num [SPHERE_RADIUS] : (0:ℝ) < 0.5 / SPHERE_RADIUS)]
    norm_num [SPHERE_RADIUS]
  exact ⟨hOut, by rw [hPos]; exact hplen, by rw [hPos, hposexpr], hvelexpr, hvlen, hDist⟩

/-- C1 witness: the sample particle at distance 3 pushed to distance 4
crosses the boundary and lands with position norm exactly 3.5. -/
theorem step_transition_witness :
    pNear.isOutside = false ∧
    SPHERE_RADIUS ≤ (insideMoved randKeep sampleSettings (1/2) pNear).length ∧
    (stepPhoton randKeep sampleSettings (1/2) pNear).position.length = SPHERE_RADIUS := by
  exact ⟨rfl, sampleCrossing,
    (step_transition randKeep sampleSettings (1/2) pNear rfl sampleCrossing).2.1⟩

/-- C1 counterexample: the same crossing step leaves
`distanceFromCenter = 4` (the pre-renormalization distance), not the
renormalized 3.5 the claim asserts, even though the phase flips. -/
theorem step_transition_distance_cex :
    (stepPhoton randKeep sampleSettings (1/2) pNear).isOutside = true ∧
    (stepPhoton randKeep sampleSettings (1/2) pNear).distanceFromCenter = 4 ∧
    (stepPhoton randKeep sampleSettings (1/2) pNear).distanceFromCenter ≠ 3.5 := by
  have hfalse : pNear.isOutside = false := rfl
  have hOut : (stepPhoton randKeep sampleSettings (1/2) pNear).isOutside = true := by
    unfold stepPhoton
    rw [if_pos hfalse, if_pos sampleCrossing]
  have hDist : (stepPhoton randKeep sampleSettings (1/2) pNear).distanceFromCenter = 4 := by
    unfold stepPhoton
    rw [if_pos hfalse, if_pos sampleCrossing, sampleMoved, lengthFour]
  exact ⟨hOut, hDist, by rw [hDist]; norm_num⟩

/-- C3: in both phases, the step appends the new position to the (force-
seeded) path exactly when that path is empty or the last recorded point
lies farther than the 0.1 decimation threshold from the new position. -/
theorem step_appends_iff (r : RandDraws) (s : Settings) (delta : ℝ) (p : PhotonData) :
    DISTANCE_THRESHOLD = 0.1 ∧
    ((stepPhoton r s delta p).path =
        basePath p ++ [(stepPhoton r s delta p).position] ↔
      basePath p = [] ∨ ∃ lpt, (basePath p).getLast? = some lpt ∧
        DISTANCE_THRESHOLD < lpt.distanceTo (stepPhoton r s delta p).position) ∧
    (¬(basePath p = [] ∨ ∃ lpt, (basePath p).getLast? = some lpt ∧
        DISTANCE_THRESHOLD < lpt.distanceTo (stepPhoton r s delta p).position) →
      (stepPhoton r s delta p).path = basePath p) := by
  refine ⟨rfl, ?_, ?_⟩
  · rw [stepPhoton_path]
    exact (pushIfFar_spec (basePath p) (stepPhoton r s delta p).position).1
  · rw [stepPhoton_path]
    exact (pushIfFar_spec (basePath p) (stepPhoton r s delta p).position).2

/-- C4: the Outside phase is absorbing — once `isOutside` is true it stays
true across any sequence of subsequent ticks. -/
theorem isOutside_monotone (ts : List TickInput) (p : PhotonData)
    (h : p.isOutside = true) :
    (runTicks ts p).isOutside = true := by
  induction ts generalizing p with
  | nil => exact h
  | cons t ts ih =>
    rw [runTicks, List.foldl_cons]
    exact ih (stepPhoton t.rand t.settings t.delta p)
      (stepPhoton_keepsOutside t.rand t.settings t.delta p h)

/-- C4 witness: an escaped particle stays Outside after a further tick. -/
theorem isOutside_monotone_witness :
    pOut.isOutside = true ∧ (runTicks [tickOut] pOut).isOutside = true :=
  ⟨rfl, isOutside_monotone [tickOut] pOut rfl⟩

/-- C3 witness: an outside-phase step that moves a full unit appends the
new position to the path. -/
theorem step_appends_iff_witness :
    (basePath pStep).getLast? = some (Vec3.mk 1 0 0) ∧
    DISTANCE_THRESHOLD <
      (Vec3.mk 1 0 0).distanceTo (stepPhoton randKeep sampleSettings (1/6) pStep).position ∧
    (stepPhoton randKeep sampleSettings (1/6) pStep).path =
      basePath pStep ++ [(stepPhoton randKeep sampleSettings (1/6) pStep).position] := by
  have htrue : ¬ (pStep.isOutside = false) := by simp [pStep]
  have hpos : (stepPhoton randKeep sampleSettings (1/6) pStep).position = Vec3.mk 2 0 0 := by
    unfold stepPhoton
    rw [if_neg htrue]
    show outsideMoved sampleSettings (1/6) pStep = Vec3.mk 2 0 0
    simp only [outsideMoved, sampleSettings, pStep, Vec3.add, Vec3.multiplyScalar,
      Vec3.mk.injEq]
    norm_num
  have hlast : (basePath pStep).getLast? = some (Vec3.mk 1 0 0) := by
    simp [basePath, pStep]
  have hdist : DISTANCE_THRESHOLD <
      (Vec3.mk 1 0 0).distanceTo (stepPhoton randKeep sampleSettings (1/6) pStep).position := by
    rw [hpos]
    simp only [Vec3.distanceTo, DISTANCE_THRESHOLD]
    rw [show ((1:ℝ) - 2) * (1 - 2) + (0 - 0) * (0 - 0) + (0 - 0) * (0 - 0) = 1 by norm_num,
      Real.sqrt_one]
    norm_num
  exact ⟨hlast, hdist,
    (step_appends_iff randKeep sampleSettings (1/6) pStep).2.1.mpr
      (Or.inr ⟨Vec3.mk 1 0 0, hlast, hdist⟩)⟩

/-- C2: for a nonempty population, reaping leaves at least one live
particle; when every particle escaped, exactly one replacement spawns at
the origin and the escaped particles' trails are still appended; whenever
any particle was removed, the trails of this tick's escapees are
appended. -/
theorem reap_population_spec (now : ℕ) (r : SpawnRand) (ps : List PhotonData)
    (hps : 0 < ps.length) :
    0 < (reap now r ps).1.length ∧
    ((reapActive ps).length = 0 →
      (reap now r ps).1 = [replacementPhoton now r] ∧
      (replacementPhoton now r).position = Vec3.mk 0 0 0 ∧
      (replacementPhoton now r).isOutside = false ∧
      (reap now r ps).2 = (reapRemoved ps).map mkTrail) ∧
    ((reapActive ps).length ≠ ps.length →
      (reap now r ps).2 = (reapRemoved ps).map mkTrail) := by
  by_cases h0 : (reapActive ps).length = 0
  · have hcond : (reapActive ps).length < ps.length ∧ (reapActive ps).length = 0 := by
      constructor
      · rw [h0]
        exact hps
      · exact h0
    have hr : reap now r ps = ([replacementPhoton now r], (reapRemoved ps).map mkTrail) := by
      unfold reap
      rw [if_pos hcond]
    exact ⟨by rw [hr]; norm_num, fun _ => ⟨by rw [hr], rfl, rfl, by rw [hr]⟩,
      fun _ => by rw [hr]⟩
  · by_cases h1 : (reapActive ps).length ≠ ps.length
    · have hr : reap now r ps = (reapActive ps, (reapRemoved ps).map mkTrail) := by
        unfold reap
        rw [if_neg (fun hc => h0 hc.2), if_pos h1]
      exact ⟨by rw [hr]; exact Nat.pos_of_ne_zero h0, fun hc => absurd hc h0,
        fun _ => by rw [hr]⟩
    · push_neg at h1
      have hr : reap now r ps = (ps, []) := by
        unfold reap
        rw [if_neg (fun hc => h0 hc.2), if_neg (not_not_intro h1)]
      exact ⟨by rw [hr]; exact hps, fun hc => absurd hc h0, fun hc => absurd h1 hc⟩

/-- C2 witness: a one-particle population at distance 30 reaps to a
single replacement particle, with the escapee's trail appended. -/
theorem reap_population_witness :
    0 < psFar.length ∧ (reapActive psFar).length = 0 ∧
    (reap 7 spawnHalf psFar).1 = [replacementPhoton 7 spawnHalf] ∧
    (reap 7 spawnHalf psFar).2 = (reapRemoved psFar).map mkTrail := by
  have h1 : 0 < psFar.length := by norm_num [psFar]
  have h2 : (reapActive psFar).length = 0 := by
    unfold reapActive psFar
    rw [List.filter_cons, if_neg (by simp only [decide_eq_true_eq, pFar, MAX_DISTANCE]; norm_num)]
    rfl
  exact ⟨h1, h2, ((reap_population_spec 7 spawnHalf psFar h1).2.1 h2).1,
    ((reap_population_spec 7 spawnHalf psFar h1).2.1 h2).2.2.2⟩

/-- C5: a trail built at retirement copies the particle's id; its path
always has at least two points: a one-point path is padded by duplicating
the sole point, an empty path becomes two copies of the particle's
current position, and a path of two or more points is copied unchanged. -/
theorem mkTrail_spec (p : PhotonData) :
    (mkTrail p).id = p.id ∧
    2 ≤ (mkTrail p).path.length ∧
    (p.path = [] → (mkTrail p).path = [p.position, p.position]) ∧
    (∀ a, p.path = [a] → (mkTrail p).path = [a, a]) ∧
    (2 ≤ p.path.length → (mkTrail p).path = p.path) := by
  refine ⟨?_, ?_, ?_, ?_, ?_⟩
  · unfold mkTrail
    split
    · rfl
    · split
      · rfl
      · rfl
  · unfold mkTrail
    by_cases hc1 : p.path.length < 2 ∧ 0 < p.path.length
    · rw [if_pos hc1]
      show 2 ≤ (p.path ++ [p.path.headD p.position]).length
      simp only [List.length_append, List.length_cons, List.length_nil]
      omega
    · rw [if_neg hc1]
      by_cases hc2 : p.path.length = 0
      · rw [if_pos hc2]
        show 2 ≤ ([p.position, p.position]).length
        simp
      · rw [if_neg hc2]
        show 2 ≤ p.path.length
        omega
  · intro hnil
    unfold mkTrail
    rw [if_neg (by rw [hnil]; simp), if_pos (by rw [hnil]; rfl)]
  · intro a ha
    unfold mkTrail
    rw [if_pos (by constructor <;> (rw [ha]; simp))]
    show p.path ++ [p.path.headD p.position] = [a, a]
    rw [ha]
    simp
  · intro h2
    unfold mkTrail
    rw [if_neg (by omega), if_neg (by omega)]

/-- C5 witness: a one-point path is padded by duplicating its sole
point. -/
theorem mkTrail_spec_witness :
    pSolo.path = [Vec3.mk 1 0 0] ∧
    (mkTrail pSolo).path = [Vec3.mk 1 0 0, Vec3.mk 1 0 0] :=
  ⟨rfl, (mkTrail_spec pSolo).2.2.2.1 (Vec3.mk 1 0 0) rfl⟩

/-- C6: the segment mapper is the inside-sphere gradient at opacity 1 for
d ≤ R; for d > R it is the bright-orange constant with opacity
`max 0.1 (exp (-(d - R) / 10))`; and the two branch formulas coincide at
d = R with value (bright orange, 1), so the mapping is continuous at the
boundary. -/
theorem colorMapper_spec :
    (∀ d : ℝ, d ≤ SPHERE_RADIUS →
      photonSegmentStyle d = (Color.lerp photonStart photonEnd (d / SPHERE_RADIUS), 1)) ∧
    (∀ d : ℝ, SPHERE_RADIUS < d →
      photonSegmentStyle d =
        (photonEnd, max 0.1 (Real.exp (-((d - SPHERE_RADIUS) / 10))))) ∧
    photonSegmentStyle SPHERE_RADIUS = (photonEnd, 1) ∧
    (photonEnd, max (0.1:ℝ) (Real.exp (-((SPHERE_RADIUS - SPHERE_RADIUS) / 10)))) =
      photonSegmentStyle SPHERE_RADIUS := by
  have hlerp1 : Color.lerp photonStart photonEnd 1 = photonEnd := by
    simp only [Color.lerp, photonStart, photonEnd, Color.mk.injEq]
    norm_num
  have hboundary : photonSegmentStyle SPHERE_RADIUS = (photonEnd, 1) := by
    unfold photonSegmentStyle
    rw [if_pos le_rfl, div_self (by norm_num [SPHERE_RADIUS] : SPHERE_RADIUS ≠ 0), hlerp1]
  refine ⟨?_, ?_, hboundary, ?_⟩
  · intro d hd
    unfold photonSegmentStyle
    rw [if_pos hd]
  · intro d hd
    unfold photonSegmentStyle
    rw [if_neg (not_le.mpr hd),
      max_eq_right (le_of_lt (div_pos (sub_pos.mpr hd) (by norm_num)))]
  · rw [hboundary]
    rw [show SPHERE_RADIUS - SPHERE_RADIUS = 0 by ring]
    norm_num [Real.exp_zero]

/-- C6 witness: the mapper evaluated strictly inside and strictly outside
the sphere takes the two asserted forms. -/
theorem colorMapper_spec_witness :
    ((0:ℝ) ≤ SPHERE_RADIUS ∧
      photonSegmentStyle 0 = (Color.lerp photonStart photonEnd (0 / SPHERE_RADIUS), 1)) ∧
    (SPHERE_RADIUS < (4:ℝ) ∧
      photonSegmentStyle 4 =
        (photonEnd, max 0.1 (Real.exp (-((4 - SPHERE_RADIUS) / 10))))) :=
  ⟨⟨by norm_num [SPHERE_RADIUS], colorMapper_spec.1 0 (by norm_num [SPHERE_RADIUS])⟩,
    ⟨by norm_num [SPHERE_RADIUS], colorMapper_spec.2.1 4 (by norm_num [SPHERE_RADIUS])⟩⟩

/-- C7: for every segment start point, the live-particle call site and
the retired-trail call site compute the same color and opacity from the
point's distance to the origin, in the immediate-mode pair of call sites
and in the buffered vertex-color pair of call sites alike. -/
theorem colorMapper_call_sites_agree :
    (∀ pt : Vec3, photonSegmentStyle pt.length = trailSegmentStyle pt.length) ∧
    (∀ pt : Vec3, photonVertexColor pt.length = trailVertexColor pt.length) :=
  ⟨fun _ => rfl, fun _ => rfl⟩

/-- C8: `addParticle` appends exactly one freshly spawned particle
(origin position, 2-point seed path) when the live count is below 8 and
is a no-op at or above 8; a population within the cap stays within it. -/
theorem addPhoton_spec (r : SpawnRand) (st : IndexState) :
    (st.photons.length < MAX_PHOTONS →
      (addPhoton r st).photons = st.photons ++ [(createPhoton r st.counter).1] ∧
      (createPhoton r st.counter).1.position = Vec3.mk 0 0 0 ∧
      (createPhoton r st.counter).1.path.length = 2) ∧
    (MAX_PHOTONS ≤ st.photons.length → addPhoton r st = st) ∧
    (st.photons.length ≤ MAX_PHOTONS → (addPhoton r st).photons.length ≤ MAX_PHOTONS) := by
  refine ⟨?_, ?_, ?_⟩
  · intro h
    unfold addPhoton
    rw [if_pos h]
    exact ⟨rfl, rfl, rfl⟩
  · intro h
    unfold addPhoton
    rw [if_neg (not_lt.mpr h)]
  · intro h
    unfold addPhoton
    by_cases hlt : st.photons.length < MAX_PHOTONS
    · rw [if_pos hlt]
      show (st.photons ++ [(createPhoton r st.counter).1]).length ≤ MAX_PHOTONS
      simp only [List.length_append, List.length_cons, List.length_nil]
      omega
    · rw [if_neg hlt]
      exact h

/-- C8 witness: adding to an empty population appends one particle;
adding to a population of 8 changes nothing. -/
theorem addPhoton_spec_witness :
    stEmpty.photons.length < MAX_PHOTONS ∧
    (addPhoton spawnHalf stEmpty).photons =
      stEmpty.photons ++ [(createPhoton spawnHalf stEmpty.counter).1] ∧
    MAX_PHOTONS ≤ stFull.photons.length ∧
    addPhoton spawnHalf stFull = stFull := by
  have h1 : stEmpty.photons.length < MAX_PHOTONS := by
    norm_num [stEmpty, MAX_PHOTONS]
  have h2 : MAX_PHOTONS ≤ stFull.photons.length := by
    norm_num [stFull, MAX_PHOTONS, List.length_replicate]
  exact ⟨h1, ((addPhoton_spec spawnHalf stEmpty).1 h1).1, h2,
    (addPhoton_spec spawnHalf stFull).2.1 h2⟩

theorem spawnAll_map_id (rs : List SpawnRand) (c : ℕ) :
    (spawnAll rs c).1.map PhotonData.id = List.range' c rs.length := by
  induction rs generalizing c with
  | nil => rfl
  | cons r rs ih =>
    show (createPhoton r c).1.id ::
        ((spawnAll rs (createPhoton r c).2).1.map PhotonData.id) =
      List.range' c (rs.length + 1)
    rw [show (createPhoton r c).2 = c + 1 from rfl, ih, List.range'_succ]
    rfl

/-- C9 (amended): particles spawned through `createPhoton` (the initial
particle, `addParticle`, `reset`) take ids from the monotonically
increasing module counter, so their ids are strictly increasing and
pairwise distinct in creation order; a repopulation replacement instead
takes the current clock reading (`Date.now()`) as its id. -/
theorem photonId_counter_spec (rs : List SpawnRand) (c : ℕ) (now : ℕ) (r : SpawnRand) :
    ((spawnAll rs c).1.map PhotonData.id).Pairwise (· < ·) ∧
    (createPhoton r c).1.id = c ∧
    (createPhoton r c).2 = c + 1 ∧
    (replacementPhoton now r).id = now := by
  refine ⟨?_, rfl, rfl, rfl⟩
  rw [spawnAll_map_id]
  exact List.pairwise_lt_range' c rs.length

/-- C9 counterexample: the particle created first in a session carries
counter id 0; after it escapes, the repopulation replacement takes its id
from the clock, which can equal 0 again — two distinct particles of the
session share an id and ids fail to increase in creation order. -/
theorem photonId_clock_collision_cex :
    pEsc.id = (createPhoton spawnHalf 0).1.id ∧
    (reap 0 spawnHalf [pEsc]).1 = [replacementPhoton 0 spawnHalf] ∧
    (replacementPhoton 0 spawnHalf).id = pEsc.id ∧
    ¬ (pEsc.id < (replacementPhoton 0 spawnHalf).id) := by
  have hact : reapActive [pEsc] = [] := by
    unfold reapActive
    rw [List.filter_cons,
      if_neg (by simp only [decide_eq_true_eq, pEsc, MAX_DISTANCE]; norm_num)]
    rfl
  have hcond : (reapActive [pEsc]).length < ([pEsc] : List PhotonData).length ∧
      (reapActive [pEsc]).length = 0 := by
    rw [hact]
    exact ⟨by norm_num, rfl⟩
  have hreap : (reap 0 spawnHalf [pEsc]).1 = [replacementPhoton 0 spawnHalf] := by
    unfold reap
    rw [if_pos hcond]
  exact ⟨rfl, hreap, rfl, by decide⟩

/-- C10: every freshly spawned particle — from `createPhoton` (initial,
`addParticle`, `reset`) and from either repopulation spawn — starts in
the Inside phase at the origin with cached distance 0 and a path whose
first point is the origin. -/
theorem spawn_initial_state (r : SpawnRand) (c : ℕ) (now : ℕ) :
    ((createPhoton r c).1.isOutside = false ∧
      (createPhoton r c).1.position = Vec3.mk 0 0 0 ∧
      (createPhoton r c).1.distanceFromCenter = 0 ∧
      (createPhoton r c).1.path.head? = some (Vec3.mk 0 0 0)) ∧
    ((replacementPhoton now r).isOutside = false ∧
      (replacementPhoton now r).position = Vec3.mk 0 0 0 ∧
      (replacementPhoton now r).distanceFromCenter = 0 ∧
      (replacementPhoton now r).path.head? = some (Vec3.mk 0 0 0)) ∧
    ((replacementPhotonLegacy now r).isOutside = false ∧
      (replacementPhotonLegacy now r).position = Vec3.mk 0 0 0 ∧
      (replacementPhotonLegacy now r).distanceFromCenter = 0 ∧
      (replacementPhotonLegacy now r).path.head? = some (Vec3.mk 0 0 0)) :=
  ⟨⟨rfl, rfl, rfl, rfl⟩, ⟨rfl, rfl, rfl, rfl⟩, ⟨rfl, rfl, rfl, rfl⟩⟩

end PhotonWander
